import Mathlib

/-!
# Verification of the search-client query facade and conditional evaluator

Shallow embedding of `src/parser/query.types.ts` (the `SQXSearchQuery`
facade) and `src/parser/al-conditional-subject.ts` (the `AlQueryEvaluator`
conditional interpreter), together with proofs about the behaviour of
`getConditions`, `and`/`or` composition, `traverseDescendants`,
`getPropertyConditions`/`getPropertyCondition`, `fromQueryString`/
`fromParser`/`fromJson`, `getColumnDescriptions`/`isAggregate`, and the
dispatch/evaluate family of the conditional evaluator.

The AST node classes (`common.types.ts`, `operator.types.ts`,
`clause.types.ts`) and the parser (`parser.types.ts`) are imported by the
facade but are not part of the available sources; the token taxonomy and
the parser state are therefore modelled from the specification, while every
operation of the two available source files is translated directly.
-/

/-- Modelled from the spec: the kinds of `SQXGroupBase` containers.
`SQXOperatorAnd` and `SQXOperatorOr` are group-shaped operators; clause
member lists (columns, order terms) are plain token collections that are
groups but not operators (`collK`). `clause.types.ts`/`operator.types.ts`
are not under `src/`. -/
inductive SQXGroupKind where
  | andK
  | orK
  | collK
deriving DecidableEq, Repr

/-- Modelled from the spec: the idealized token tree (`common.types.ts` and
`operator.types.ts` are not under `src/`).  `plain` covers bare
`SQXToken`s and scalar values, `propertyRef` covers `SQXPropertyRef`,
`group` covers every `SQXGroupBase` (including the AND/OR operators),
`op` covers non-group `SQXOperatorBase` nodes (comparators such as EQUAL
and IN, aggregate functions such as count(x)) carrying their rendered
text, their optional property reference and their `getDescendants()`
list, and `projectAs` covers `SQXOperatorProjectAs` with its origin and
alias. -/
inductive SQXToken where
  | plain (textValue : String)
  | propertyRef (textValue : String)
  | group (gkind : SQXGroupKind) (items : List SQXToken)
  | op (textValue : String) (opPropertyRef : Option String) (descendants : List SQXToken)
  | projectAs (textValue : String) (origin : SQXToken) (aliasTok : SQXToken)

/-- `token instanceof SQXGroupBase` in the source. -/
def SQXToken.isGroup : SQXToken → Bool
  | .group _ _ => true
  | _ => false

/-- `token instanceof SQXOperatorBase` in the source: AND/OR groups,
comparators/aggregate operators, and PROJECT_AS are all operators;
plain tokens, property refs and bare token collections are not. -/
def SQXToken.isOperatorBase : SQXToken → Bool
  | .group .andK _ => true
  | .group .orK _ => true
  | .group .collK _ => false
  | .op _ _ _ => true
  | .projectAs _ _ _ => true
  | _ => false

/-- `token instanceof SQXOperatorAnd` in the source. -/
def SQXToken.isAnd : SQXToken → Bool
  | .group .andK _ => true
  | _ => false

/-- `token instanceof SQXOperatorOr` in the source. -/
def SQXToken.isOr : SQXToken → Bool
  | .group .orK _ => true
  | _ => false

/-- Modelled from the spec: every token wraps a raw text value
(`common.types.ts` is not under `src/`).  Group nodes do not carry a
meaningful rendered text of their own; no claim depends on it. -/
def SQXToken.textValue : SQXToken → String
  | .plain tv => tv
  | .propertyRef tv => tv
  | .group _ _ => ""
  | .op tv _ _ => tv
  | .projectAs tv _ _ => tv

/-- Modelled from the spec: `toQueryString()` renders a node as query
text; the rendered text of a leaf or operator node is its text value.
Group rendering is not needed by any claim. -/
def SQXToken.toQueryString : SQXToken → String
  | t => t.textValue

/-- The property reference (`opPropertyRef`) carried by an operator node,
when it has one.  In the source `getPropertyConditions` reads
`token.opPropertyRef.textValue` on visited operator nodes; an operator
without a property reference matches no target property. -/
def SQXToken.opPropText : SQXToken → Option String
  | .op _ pr _ => pr
  | _ => none

/-- The WHERE clause (`SQXClauseWhere`): wraps the single root condition of
the query. -/
structure SQXClauseWhere where
  condition : SQXToken

/-- The SELECT clause (`SQXClauseSelect`): wraps the ordered column list. -/
structure SQXClauseSelect where
  columns : List SQXToken

/-- Modelled from the spec: clauses are `GroupBase` containers over their
member tokens, so the idealized-tree traversal passes through them into
their members (`clause.types.ts` is not under `src/`). -/
def SQXClauseSelect.asToken (s : SQXClauseSelect) : SQXToken :=
  .group .collK s.columns

/-- Modelled from the spec: the WHERE clause is a transparent container of
its single root condition (`clause.types.ts` is not under `src/`). -/
def SQXClauseWhere.asToken (w : SQXClauseWhere) : SQXToken :=
  .group .collK [w.condition]

/-- A column descriptor (`SQXColumnDescriptor`).  The source always pushes
all four fields; `asField` is `null` and `isAggregate` is `false` unless
assigned. -/
structure SQXColumnDescriptor where
  name : String
  type : String
  asField : Option String := none
  isAggregate : Bool := false
deriving DecidableEq, Repr

/-- The query facade (`SQXSearchQuery`).  All clause fields start `null`
(`none`), `aggregate` starts `false`, exactly as the field initializers of
the source class.  Clauses other than SELECT and WHERE are opaque token
trees here. -/
structure SQXSearchQuery where
  key : Option String := none
  name : Option String := none
  select : Option SQXClauseSelect := none
  where_ : Option SQXClauseWhere := none
  order_by : Option SQXToken := none
  group_by : Option SQXToken := none
  group_by_permuted : Option SQXToken := none
  having : Option SQXToken := none
  limit : Option SQXToken := none
  time_range : Option SQXToken := none
  aggregate : Bool := false

/-- `SQXSearchQuery.getConditions`: if no WHERE clause exists, create one
whose condition is a fresh `SQXOperatorAnd` (an AND group with no items),
then return the WHERE clause's condition.  Mutation of `this` is embedded
as returning the updated query alongside the result. -/
def SQXSearchQuery.getConditions (q : SQXSearchQuery) : SQXToken × SQXSearchQuery :=
  match q.where_ with
  | none =>
      let w : SQXClauseWhere := { condition := .group .andK [] }
      (w.condition, { q with where_ := some w })
  | some w => (w.condition, q)

/-- `SQXSearchQuery.and`: fetch the existing condition via `getConditions`;
if it is not already an `SQXOperatorAnd`, replace the WHERE root with a new
AND group whose items hold the existing condition. -/
def SQXSearchQuery.and (q : SQXSearchQuery) : SQXSearchQuery :=
  let r := q.getConditions
  if r.1.isAnd then r.2
  else { r.2 with where_ := some { condition := .group .andK [r.1] } }

/-- `SQXSearchQuery.or`: fetch the existing condition via `getConditions`;
if it is not already an `SQXOperatorOr`, replace the WHERE root with a new
OR group whose items hold the existing condition. -/
def SQXSearchQuery.or (q : SQXSearchQuery) : SQXSearchQuery :=
  let r := q.getConditions
  if r.1.isOr then r.2
  else { r.2 with where_ := some { condition := .group .orK [r.1] } }

/-- `SQXOperatorBase.getDescendants()`: the immediate operand children of
an operator node, in fixed order.  Modelled from the spec for the node
kinds whose classes are not under `src/`: a comparator/aggregate operator
yields its operand list, PROJECT_AS yields origin then alias, group
operators yield their items, leaves have no descendants. -/
def SQXToken.getDescendants : SQXToken → List SQXToken
  | .op _ _ ds => ds
  | .projectAs _ origin aliasTok => [origin, aliasTok]
  | .group _ items => items
  | _ => []

mutual

/-- The recursive core of `SQXSearchQuery.traverseDescendants` for a
non-null `from` token, embedded as the ordered list of `(token, depth)`
pairs on which the callback is invoked.  A `SQXGroupBase` node is
transparent: each of its items is traversed at `depth + 1` and the group
itself is never passed to the callback.  A non-group `SQXOperatorBase`
node is passed to the callback first, then each of its `getDescendants()`
is traversed at `depth + 1`.  Any other token is passed to the callback
with no recursion. -/
def traverseFrom (t : SQXToken) (depth : Nat) : List (SQXToken × Nat) :=
  match t with
  | .group _ items => traverseList items (depth + 1)
  | .op tv pr ds => (SQXToken.op tv pr ds, depth) :: traverseList ds (depth + 1)
  | .projectAs tv origin aliasTok =>
      (SQXToken.projectAs tv origin aliasTok, depth) ::
        (traverseFrom origin (depth + 1) ++ (traverseFrom aliasTok (depth + 1) ++ []))
  | .plain tv => [(SQXToken.plain tv, depth)]
  | .propertyRef tv => [(SQXToken.propertyRef tv, depth)]

/-- Traverses each member of a list in order at the given depth. -/
def traverseList (ts : List SQXToken) (depth : Nat) : List (SQXToken × Nat) :=
  match ts with
  | [] => []
  | x :: rest => traverseFrom x depth ++ traverseList rest depth

end

/-- `SQXSearchQuery.traverseDescendants` with `from` unset: enumerates the
present clauses in the fixed source order SELECT, WHERE, ORDER BY,
GROUP BY, GROUP BY PERMUTED, HAVING, LIMIT (`filter(x => x)` drops the
absent ones, and TIME RANGE is not in the list), traversing each at the
current depth 0. -/
def SQXSearchQuery.traverseDescendants (q : SQXSearchQuery) : List (SQXToken × Nat) :=
  ([q.select.map SQXClauseSelect.asToken, q.where_.map SQXClauseWhere.asToken,
    q.order_by, q.group_by, q.group_by_permuted, q.having, q.limit].filterMap id).flatMap
    (fun c => traverseFrom c 0)

/-- `SQXSearchQuery.getPropertyConditions`: traverses the idealized tree
from the WHERE root obtained via `getConditions()` and pushes, in visit
order, every visited `SQXOperatorBase` whose own property reference text
equals the target property's text.  (An operator without a property
reference matches no target.) -/
def SQXSearchQuery.getPropertyConditions (q : SQXSearchQuery) (property : String) :
    List SQXToken × SQXSearchQuery :=
  let r := q.getConditions
  (((traverseFrom r.1 0).filter
      (fun p => p.1.isOperatorBase && (p.1.opPropText == some property))).map Prod.fst,
   r.2)

/-- `SQXSearchQuery.getPropertyCondition`: zero matches yield `null`, more
than one match throws (the multiple-conditions error), exactly one match is
returned. -/
def SQXSearchQuery.getPropertyCondition (q : SQXSearchQuery) (property : String) :
    Except String (Option SQXToken) × SQXSearchQuery :=
  let r := q.getPropertyConditions property
  match r.1 with
  | [] => (.ok none, r.2)
  | [x] => (.ok (some x), r.2)
  | _ :: _ :: _ =>
      (.error "getPropertyCondition cannot be used on a query with more than one condition for the target property",
       r.2)

/-- Modelled from the spec: the `SQXParser` state after one `evaluate` or
`fromJson` pass (`parser.types.ts` is not under `src/`): the populated
clause fields plus the accumulated ordered error list.  The facade only
reads these fields. -/
structure SQXParserState where
  errors : List String := []
  select : Option SQXClauseSelect := none
  where_ : Option SQXClauseWhere := none
  orderBy : Option SQXToken := none
  groupBy : Option SQXToken := none
  groupByPermuted : Option SQXToken := none
  having : Option SQXToken := none
  limit : Option SQXToken := none
  timeRange : Option SQXToken := none

/-- The single failure kind `fromQueryString` surfaces for an input whose
parse accumulated errors. -/
inductive SQXQueryError where
  | invalidQuery
deriving DecidableEq, Repr

/-- `SQXSearchQuery.fromParser`: copies `select`, `where`, `orderBy`,
`groupBy`, `groupByPermuted`, `limit` and `having` from the parser into a
fresh query; every other field (including `time_range`, `key`, `name` and
`aggregate`) keeps its constructor default. -/
def SQXSearchQuery.fromParser (parsed : SQXParserState) : SQXSearchQuery :=
  { select := parsed.select
    where_ := parsed.where_
    order_by := parsed.orderBy
    group_by := parsed.groupBy
    group_by_permuted := parsed.groupByPermuted
    limit := parsed.limit
    having := parsed.having }

/-- `SQXSearchQuery.fromQueryString`: runs the parser over the expression
and inspects `parser.state.errors`; a non-empty error list is surfaced as a
single thrown failure and no query is exposed, otherwise the query is built
from the parser's clause fields via `fromParser`.  The parser run itself is
not under `src/`, so the function is embedded over its resulting state. -/
def SQXSearchQuery.fromQueryString (parsed : SQXParserState) :
    Except SQXQueryError SQXSearchQuery :=
  if parsed.errors.length ≠ 0 then .error .invalidQuery
  else .ok (SQXSearchQuery.fromParser parsed)

/-- `SQXSearchQuery.fromJson`: takes `key`/`name` from the raw object when
present and copies every clause field the parser's JSON path produced —
including `time_range`, unlike `fromParser`. -/
def SQXSearchQuery.fromJson (key name : Option String) (parsed : SQXParserState) :
    SQXSearchQuery :=
  { key := key
    name := name
    select := parsed.select
    where_ := parsed.where_
    order_by := parsed.orderBy
    group_by := parsed.groupBy
    group_by_permuted := parsed.groupByPermuted
    limit := parsed.limit
    having := parsed.having
    time_range := parsed.timeRange }

/-- One iteration of the `getColumnDescriptions` loop: classifies a single
SELECT column, in the source's `instanceof` order — `SQXPropertyRef`
first, then `SQXOperatorProjectAs`, then any other `SQXOperatorBase`,
anything else skipped with a console warning.  Returns the pushed
descriptor (if any) and the updated `aggregate` flag; the flag is only
ever assigned `true`, inside the aggregate PROJECT_AS branch. -/
def columnStep (column : SQXToken) (aggregate : Bool) :
    Option SQXColumnDescriptor × Bool :=
  match column with
  | .propertyRef tv =>
      (some { name := (SQXToken.propertyRef tv).toQueryString, type := "any" }, aggregate)
  | .projectAs _ origin aliasTok =>
      if origin.isOperatorBase then
        (some { name := aliasTok.textValue, type := "number",
                asField := some origin.textValue, isAggregate := true }, true)
      else
        (some { name := aliasTok.textValue, type := "any",
                asField := some origin.textValue, isAggregate := false }, aggregate)
  | c =>
      if c.isOperatorBase then
        (some { name := c.toQueryString, type := "number" }, aggregate)
      else (none, aggregate)

/-- The `getColumnDescriptions` loop over the SELECT column list, threading
the instance's `aggregate` flag. -/
def columnsFold : List SQXToken → Bool → List SQXColumnDescriptor × Bool
  | [], aggregate => ([], aggregate)
  | c :: rest, aggregate =>
      let s := columnStep c aggregate
      let r := columnsFold rest s.2
      (s.1.toList ++ r.1, r.2)

/-- `SQXSearchQuery.getColumnDescriptions`: with no SELECT clause returns
an empty list and leaves the query untouched; otherwise classifies each
column in order and caches the `aggregate` flag on the instance. -/
def SQXSearchQuery.getColumnDescriptions (q : SQXSearchQuery) :
    List SQXColumnDescriptor × SQXSearchQuery :=
  match q.select with
  | none => ([], q)
  | some sel =>
      let r := columnsFold sel.columns q.aggregate
      (r.1, { q with aggregate := r.2 })

/-- `SQXSearchQuery.isAggregate`: runs column inference, then reports the
cached `aggregate` flag. -/
def SQXSearchQuery.isAggregate (q : SQXSearchQuery) : Bool × SQXSearchQuery :=
  let r := q.getColumnDescriptions
  (r.2.aggregate, r.2)

/-- Whether a SELECT column is an aggregate projection (a PROJECT_AS whose
origin is an operator) — the only column shape that assigns the cached
`aggregate` flag. -/
def SQXToken.isAggregateProjection : SQXToken → Bool
  | .projectAs _ origin _ => origin.isOperatorBase
  | _ => false

/-- Whether the SELECT clause of a query holds an aggregate projection. -/
def SQXSearchQuery.hasAggregateColumn (q : SQXSearchQuery) : Bool :=
  match q.select with
  | none => false
  | some sel => sel.columns.any SQXToken.isAggregateProjection

/-- The SELECT list of `count(x) AS total, name`: a PROJECT_AS whose origin
is the aggregate operator `count(x)` and whose alias is `total`, followed
by the bare property ref `name`. -/
def countTotalNameSelect : SQXClauseSelect :=
  ⟨[.projectAs "count(x) AS total" (.op "count(x)" none [.propertyRef "x"]) (.plain "total"),
    .propertyRef "name"]⟩

/-- A JSON value, as handled by `AlQueryEvaluator`.  Numbers are embedded
as integers (no claim involves fractional values); `null` also stands for
JavaScript `undefined`, which no claim distinguishes. -/
inductive Jval where
  | str (s : String)
  | num (n : Int)
  | boolVal (b : Bool)
  | nullVal
  | arr (items : List Jval)
  | obj (fields : List (String × Jval))

/-- `Object.keys(op)`: field names of an object in insertion order, index
strings of an array.  (Other values have no own enumerable keys that any
claim exercises.) -/
def jsKeys : Jval → List String
  | .obj fields => fields.map Prod.fst
  | .arr items => (List.range items.length).map (fun i => toString i)
  | _ => []

/-- `op[key]`: property access on an object or array. -/
def jsGet : Jval → String → Jval
  | .obj fields, k =>
      match fields.find? (fun f => f.1 == k) with
      | some f => f.2
      | none => .nullVal
  | .arr items, k =>
      match k.toNat? with
      | some i => items.getD i .nullVal
      | none => .nullVal
  | _, _ => .nullVal

/-- JavaScript strict equality `===` on the values the evaluator compares:
primitives compare by value; an array or object is only `===` to itself
(reference equality), and the actual value and a test value from the
descriptor are always distinct objects, so composite comparisons are
false. -/
def jsStrictEq : Jval → Jval → Bool
  | .str a, .str b => a == b
  | .num a, .num b => a == b
  | .boolVal a, .boolVal b => a == b
  | .nullVal, .nullVal => true
  | _, _ => false

/-- JavaScript truthiness of a value (`!! v`). -/
def jsTruthy : Jval → Bool
  | .str s => s ≠ ""
  | .num n => n ≠ 0
  | .boolVal b => b
  | .nullVal => false
  | .arr _ => true
  | .obj _ => true

/-- The property-key string a value is coerced to when used as an object
index (`actualValues.hasOwnProperty(value)`). -/
def jsKeyString : Jval → String
  | .str s => s
  | .num n => toString n
  | .boolVal true => "true"
  | .boolVal false => "false"
  | .nullVal => "null"
  | _ => ""

/-- The body of the `contains_any`/`contains_all` reduction step: an array
actual value is searched with `includes`, an object actual value by
truthy-keyed membership. -/
def jsContains (actualValues : Jval) (value : Jval) : Bool :=
  match actualValues with
  | .arr items => items.any (fun x => jsStrictEq x value)
  | .obj fields =>
      match fields.find? (fun f => f.1 == jsKeyString value) with
      | some f => jsTruthy f.2
      | none => false
  | _ => false

/-- `AlQueryEvaluator.normalizeProperty`: the descriptor must carry a
`source`, which is either an object carrying string `ns`/`id` fields or a
bare string id under the `default` namespace; anything else is an invalid
property reference.  Returns `(ns, id)`. -/
def normalizeProperty (descriptor : Jval) : Except String (String × String) :=
  match descriptor with
  | .obj fields =>
      match fields.find? (fun f => f.1 == "source") with
      | none => .error "Failed to interpret condition descriptor: property reference must include a `source` property"
      | some f =>
          match f.2 with
          | .obj srcFields =>
              match srcFields.find? (fun g => g.1 == "ns"),
                    srcFields.find? (fun g => g.1 == "id") with
              | some nsF, some idF =>
                  match nsF.2, idF.2 with
                  | .str ns, .str id => .ok (ns, id)
                  | _, _ => .error "Invalid property reference in condition descriptor"
              | _, _ => .error "Invalid property reference in condition descriptor"
          | .str s => .ok ("default", s)
          | _ => .error "Invalid property reference in condition descriptor"
  | _ => .error "Failed to interpret condition descriptor: property reference must include a `source` property"

/-- `AlQueryEvaluator.evaluateEquals`: a two-element operand list
`[propertyDescriptor, testValue]`; resolves the property on the subject
and compares with `===`.  (A non-array or wrong-arity operand fails the
`length === 2` assertion; the source's message for `=` says `!=`.) -/
def evaluateEquals (subject : String → String → Jval) (op : Jval) : Except String Bool :=
  match op with
  | .arr [p, testValue] =>
      (normalizeProperty p).map (fun pr => jsStrictEq (subject pr.2 pr.1) testValue)
  | _ => .error "Failed to interpret condition descriptor: `!=` descriptor should have two elements"

/-- `AlQueryEvaluator.evaluateNotEquals`: as `evaluateEquals`, negated
comparison.  (The source's message for `!=` says `=`.) -/
def evaluateNotEquals (subject : String → String → Jval) (op : Jval) : Except String Bool :=
  match op with
  | .arr [p, testValue] =>
      (normalizeProperty p).map (fun pr => !jsStrictEq (subject pr.2 pr.1) testValue)
  | _ => .error "Failed to interpret condition descriptor: `=` descriptor should have two elements"

/-- `AlQueryEvaluator.evaluateIn`: a two-element operand list whose second
element must be an array; tests membership of the resolved property value
with `includes` (strict equality). -/
def evaluateIn (subject : String → String → Jval) (op : Jval) : Except String Bool :=
  match op with
  | .arr [p, testValues] =>
      match normalizeProperty p with
      | .error e => .error e
      | .ok pr =>
          match testValues with
          | .arr vs => .ok (vs.any (fun v => jsStrictEq v (subject pr.2 pr.1)))
          | _ => .error "Failed to interpret condition descriptor: `in` values clause must be an array"
  | _ => .error "Failed to interpret condition descriptor: `in` descriptor should have two elements"

/-- `AlQueryEvaluator.evaluateContainsAny`: the resolved property value
must be an array or object; reduces the test values with OR over
`jsContains`, starting from false. -/
def evaluateContainsAny (subject : String → String → Jval) (op : Jval) : Except String Bool :=
  match op with
  | .arr [p, testValues] =>
      match normalizeProperty p with
      | .error e => .error e
      | .ok pr =>
          let actualValues := subject pr.2 pr.1
          match actualValues with
          | .arr _ | .obj _ =>
              match testValues with
              | .arr vs => .ok (vs.foldl (fun alpha v => alpha || jsContains actualValues v) false)
              | _ => .error "Failed to interpret condition descriptor: `in` values clause must be an array"
          | _ => .error "Failed to interpret condition descriptor: `contains_any` operator must reference a property that is an object or an array"
  | _ => .error "Failed to interpret condition descriptor: `in` descriptor should have two elements"

/-- `AlQueryEvaluator.evaluateContainsAll`: as `evaluateContainsAny`, but
reduces with AND starting from true. -/
def evaluateContainsAll (subject : String → String → Jval) (op : Jval) : Except String Bool :=
  match op with
  | .arr [p, testValues] =>
      match normalizeProperty p with
      | .error e => .error e
      | .ok pr =>
          let actualValues := subject pr.2 pr.1
          match actualValues with
          | .arr _ | .obj _ =>
              match testValues with
              | .arr vs => .ok (vs.foldl (fun alpha v => alpha && jsContains actualValues v) true)
              | _ => .error "Failed to interpret condition descriptor: `in` values clause must be an array"
          | _ => .error "Failed to interpret condition descriptor: `contains_all` operator must reference a property that is an object or an array"
  | _ => .error "Failed to interpret condition descriptor: `in` descriptor should have two elements"

/-- The `evaluateAnd` loop: `result = result && dispatchOperator(op[i])`;
once the accumulator is false the `&&` short-circuits and the element is
not evaluated. -/
def andFold (recur : Jval → Except String Bool) : List Jval → Bool → Except String Bool
  | [], result => .ok result
  | x :: rest, result =>
      if result then
        match recur x with
        | .error e => .error e
        | .ok b => andFold recur rest b
      else andFold recur rest false

/-- The `evaluateOr` loop: `result = result || dispatchOperator(op[i])`;
once the accumulator is true the `||` short-circuits and the element is
not evaluated. -/
def orFold (recur : Jval → Except String Bool) : List Jval → Bool → Except String Bool
  | [], result => .ok result
  | x :: rest, result =>
      if result then orFold recur rest true
      else
        match recur x with
        | .error e => .error e
        | .ok b => orFold recur rest b

/-- `AlQueryEvaluator.evaluateAnd`: requires a non-empty array operand and
folds the dispatcher over it with `&&`. -/
def evaluateAnd (recur : Jval → Except String Bool) (op : Jval) : Except String Bool :=
  match op with
  | .arr (x :: rest) => andFold recur (x :: rest) true
  | _ => .error "Failed to interpret condition descriptor: `and` descriptor should consist of an array of non-zero length"

/-- `AlQueryEvaluator.evaluateOr`: requires a non-empty array operand and
folds the dispatcher over it with `||`.  (The source's message for `or`
also says `and`.) -/
def evaluateOr (recur : Jval → Except String Bool) (op : Jval) : Except String Bool :=
  match op with
  | .arr (x :: rest) => orFold recur (x :: rest) false
  | _ => .error "Failed to interpret condition descriptor: `and` descriptor should consist of an array of non-zero length"

/-- `AlQueryEvaluator.evaluateNot`: passes its operand value straight back
into the dispatcher — it does not unwrap an array — and negates the
result. -/
def evaluateNot (recur : Jval → Except String Bool) (op : Jval) : Except String Bool :=
  match recur op with
  | .error e => .error e
  | .ok b => .ok (!b)

/-- `AlQueryEvaluator.dispatchOperator`: asserts the descriptor has a
single key, then dispatches on that key to the evaluate methods.  The
recursion of the JavaScript original is structural on a finite JSON tree
and always terminates; the embedding makes this explicit with a fuel
argument that strictly exceeds any input's nesting depth. -/
def dispatchOperator (subject : String → String → Jval) :
    Nat → Jval → Except String Bool
  | 0, _ => .error "recursion limit exceeded"
  | fuel + 1, op =>
      match jsKeys op with
      | [operatorKey] =>
          let operatorValue := jsGet op operatorKey
          match operatorKey with
          | "and" => evaluateAnd (dispatchOperator subject fuel) operatorValue
          | "or" => evaluateOr (dispatchOperator subject fuel) operatorValue
          | "=" => evaluateEquals subject operatorValue
          | "!=" => evaluateNotEquals subject operatorValue
          | "in" => evaluateIn subject operatorValue
          | "not" => evaluateNot (dispatchOperator subject fuel) operatorValue
          | "contains_all" => evaluateContainsAll subject operatorValue
          | "contains_any" => evaluateContainsAny subject operatorValue
          | _ => .error ("Cannot evaluate unknown operator " ++ "'" ++ operatorKey ++ "'")
      | _ => .error "Failed to interpret condition descriptor: an operator descriptor should have a single key."

/-- A subject whose `status` property is "open", whose `tag` property is
"b" and whose `tags` property is the array ["a", "b"]. -/
def subjectStatusOpenTagB : String → String → Jval := fun id _ =>
  if id = "status" then .str "open"
  else if id = "tag" then .str "b"
  else if id = "tags" then .arr [.str "a", .str "b"]
  else .nullVal

/-- The same subject with `tag` changed to "c". -/
def subjectStatusOpenTagC : String → String → Jval := fun id _ =>
  if id = "status" then .str "open"
  else if id = "tag" then .str "c"
  else if id = "tags" then .arr [.str "a", .str "b"]
  else .nullVal

/-- The descriptor `{"=":[{"source":"status"},"open"]}`. -/
def eqStatusOpen : Jval :=
  .obj [("=", .arr [.obj [("source", .str "status")], .str "open"])]

/-- The descriptor
`{"and":[{"=":[{"source":"status"},"open"]},{"in":[{"source":"tag"},["a","b"]]}]}`. -/
def andEqInDescriptor : Jval :=
  .obj [("and", .arr
    [eqStatusOpen,
     .obj [("in", .arr [.obj [("source", .str "tag")], .arr [.str "a", .str "b"]])]])]

/-- Claim C1: `getConditions()` never fails to return a condition; on a
query with no WHERE clause it creates one whose root is an AND group with
zero items and returns that root, and calling it twice without intervening
mutation returns the same structural root and the same query state
(idempotence). -/
theorem getConditions_lazy_and_idempotent (q : SQXSearchQuery) :
    (q.where_ = none →
      (q.getConditions).1 = SQXToken.group .andK [] ∧
      (q.getConditions).2.where_ = some ⟨SQXToken.group .andK []⟩) ∧
    (∀ w, q.where_ = some w → q.getConditions = (w.condition, q)) ∧
    (q.getConditions).2.getConditions = ((q.getConditions).1, (q.getConditions).2) := by
  obtain ⟨k, n, sel, w?, ob, gb, gbp, hav, lim, tr, agg⟩ := q
  cases w? <;> simp [SQXSearchQuery.getConditions]

/-- Claim C1 witness: on the empty query the root is the empty AND group
and `getConditions` is idempotent. -/
theorem getConditions_lazy_and_idempotent_witness :
    (({} : SQXSearchQuery).getConditions).1 = SQXToken.group .andK [] ∧
    (({} : SQXSearchQuery).getConditions).2.getConditions =
      ((({} : SQXSearchQuery).getConditions).1, (({} : SQXSearchQuery).getConditions).2) := by
  refine ⟨((getConditions_lazy_and_idempotent {}).1 rfl).1, (getConditions_lazy_and_idempotent {}).2.2⟩

/-- Traversing a member list visits the members in order. -/
theorem traverseList_eq_flatMap (ts : List SQXToken) (d : Nat) :
    traverseList ts d = ts.flatMap (fun x => traverseFrom x d) := by
  induction ts with
  | nil => simp [traverseList]
  | cons x rest ih => simp [traverseList, ih]

mutual

/-- The callback is never invoked on a group node: groups are transparent
containers in the idealized-tree traversal. -/
theorem traverseFrom_no_group :
    ∀ (t : SQXToken) (d : Nat) (p : SQXToken × Nat),
      p ∈ traverseFrom t d → p.1.isGroup = false
  | .group _ items, d, p, hp => by
      rw [traverseFrom] at hp
      exact traverseList_no_group items (d + 1) p hp
  | .op tv pr ds, d, p, hp => by
      rw [traverseFrom] at hp
      rcases List.mem_cons.mp hp with h | h
      · subst h; rfl
      · exact traverseList_no_group ds (d + 1) p h
  | .projectAs tv origin aliasTok, d, p, hp => by
      rw [traverseFrom] at hp
      rcases List.mem_cons.mp hp with h | h
      · subst h; rfl
      · rcases List.mem_append.mp h with h2 | h2
        · exact traverseFrom_no_group origin (d + 1) p h2
        · rcases List.mem_append.mp h2 with h3 | h3
          · exact traverseFrom_no_group aliasTok (d + 1) p h3
          · simp at h3
  | .plain tv, d, p, hp => by
      rw [traverseFrom] at hp
      rcases List.mem_singleton.mp hp with h
      subst h; rfl
  | .propertyRef tv, d, p, hp => by
      rw [traverseFrom] at hp
      rcases List.mem_singleton.mp hp with h
      subst h; rfl

/-- Auxiliary form of `traverseFrom_no_group` for member lists. -/
theorem traverseList_no_group :
    ∀ (ts : List SQXToken) (d : Nat) (p : SQXToken × Nat),
      p ∈ traverseList ts d → p.1.isGroup = false
  | [], _, _, hp => by rw [traverseList] at hp; simp at hp
  | x :: rest, d, p, hp => by
      rw [traverseList] at hp
      rcases List.mem_append.mp hp with h | h
      · exact traverseFrom_no_group x d p h
      · exact traverseList_no_group rest d p h

end

/-- Claim C2: `and()` (resp. `or()`) is a no-op on the WHERE root when the
root is already an AND (resp. OR) group, otherwise replaces the root with a
fresh group of the requested kind whose sole initial item is the previous
root; consequently `and()` then `or()` nests the prior root exactly one
level deeper, and `and()` twice leaves the query unchanged after the first
call. -/
theorem and_or_root_composition (q : SQXSearchQuery) :
    ((q.getConditions).1.isAnd = true → q.and = (q.getConditions).2) ∧
    ((q.getConditions).1.isAnd = false →
      q.and = { (q.getConditions).2 with
                where_ := some ⟨.group .andK [(q.getConditions).1]⟩ }) ∧
    ((q.getConditions).1.isOr = true → q.or = (q.getConditions).2) ∧
    ((q.getConditions).1.isOr = false →
      q.or = { (q.getConditions).2 with
                where_ := some ⟨.group .orK [(q.getConditions).1]⟩ }) ∧
    ((q.and.getConditions).1.isAnd = true) ∧
    (q.and.or.where_ = some ⟨.group .orK [(q.and.getConditions).1]⟩) ∧
    (q.and.and = q.and) := by
  obtain ⟨k, n, sel, w?, ob, gb, gbp, hav, lim, tr, agg⟩ := q
  cases w? with
  | none =>
      simp [SQXSearchQuery.and, SQXSearchQuery.or, SQXSearchQuery.getConditions,
            SQXToken.isAnd, SQXToken.isOr]
  | some w =>
      obtain ⟨c⟩ := w
      cases c with
      | group gk items =>
          cases gk <;>
            simp [SQXSearchQuery.and, SQXSearchQuery.or, SQXSearchQuery.getConditions,
                  SQXToken.isAnd, SQXToken.isOr]
      | _ =>
          simp [SQXSearchQuery.and, SQXSearchQuery.or, SQXSearchQuery.getConditions,
                SQXToken.isAnd, SQXToken.isOr]

/-- Claim C2 witness: on the empty query (AND root) `and()` only
materializes the lazy WHERE, on a comparator-rooted query `and()` wraps the
comparator, and `and()` twice equals `and()` once. -/
theorem and_or_root_composition_witness :
    (({} : SQXSearchQuery).and = (({} : SQXSearchQuery).getConditions).2) ∧
    (({ where_ := some ⟨.op "=" (some "a") []⟩ } : SQXSearchQuery).and =
      { ({ where_ := some ⟨.op "=" (some "a") []⟩ } : SQXSearchQuery) with
        where_ := some ⟨.group .andK [.op "=" (some "a") []]⟩ }) ∧
    (({} : SQXSearchQuery).and.and = ({} : SQXSearchQuery).and) := by
  refine ⟨(and_or_root_composition {}).1 rfl, ?_, (and_or_root_composition {}).2.2.2.2.2.2⟩
  exact (and_or_root_composition { where_ := some ⟨.op "=" (some "a") []⟩ }).2.1 rfl

/-- Claim C3: with `from` unset, `traverseDescendants` visits the present
clauses in the fixed order SELECT, WHERE, ORDER BY, GROUP BY, GROUP BY
PERMUTED, HAVING, LIMIT and is blind to TIME RANGE; a group node is
traversed by recursing into each item at `depth + 1` without the callback
ever firing on a group; a non-group operator node fires the callback at
`(node, depth)` and then recurses into each descendant at `depth + 1`; any
other node fires the callback with no recursion. -/
theorem traverseDescendants_clause_order_and_node_rules :
    (∀ (q : SQXSearchQuery) (tr : Option SQXToken),
      ({ q with time_range := tr } : SQXSearchQuery).traverseDescendants =
        q.traverseDescendants) ∧
    (∀ (k n : Option String) (sel : SQXClauseSelect) (wh : SQXClauseWhere)
        (ob gb gbp hav lim : SQXToken) (tr : Option SQXToken) (agg : Bool),
      (SQXSearchQuery.mk k n (some sel) (some wh) (some ob) (some gb) (some gbp)
          (some hav) (some lim) tr agg).traverseDescendants =
        traverseFrom sel.asToken 0 ++ traverseFrom wh.asToken 0 ++ traverseFrom ob 0 ++
          traverseFrom gb 0 ++ traverseFrom gbp 0 ++ traverseFrom hav 0 ++
          traverseFrom lim 0) ∧
    (∀ (gk : SQXGroupKind) (items : List SQXToken) (d : Nat),
      traverseFrom (.group gk items) d = items.flatMap (fun x => traverseFrom x (d + 1))) ∧
    (∀ (t : SQXToken) (d : Nat) (p : SQXToken × Nat),
      p ∈ traverseFrom t d → p.1.isGroup = false) ∧
    (∀ (t : SQXToken) (d : Nat), t.isOperatorBase = true → t.isGroup = false →
      traverseFrom t d =
        (t, d) :: (t.getDescendants).flatMap (fun x => traverseFrom x (d + 1))) ∧
    (∀ (t : SQXToken) (d : Nat), t.isOperatorBase = false → t.isGroup = false →
      traverseFrom t d = [(t, d)]) := by
  refine ⟨?_, ?_, ?_, ?_, ?_, ?_⟩
  · intro q tr
    simp [SQXSearchQuery.traverseDescendants]
  · intro k n sel wh ob gb gbp hav lim tr agg
    simp [SQXSearchQuery.traverseDescendants]
  · intro gk items d
    rw [traverseFrom, traverseList_eq_flatMap]
  · exact traverseFrom_no_group
  · intro t d hop hgr
    cases t with
    | group gk items => simp [SQXToken.isGroup] at hgr
    | op tv pr ds => rw [traverseFrom, traverseList_eq_flatMap]; rfl
    | projectAs tv origin aliasTok => rw [traverseFrom]; simp [SQXToken.getDescendants]
    | plain tv => simp [SQXToken.isOperatorBase] at hop
    | propertyRef tv => simp [SQXToken.isOperatorBase] at hop
  · intro t d hop hgr
    cases t with
    | group gk items => simp [SQXToken.isGroup] at hgr
    | op tv pr ds => simp [SQXToken.isOperatorBase] at hop
    | projectAs tv origin aliasTok => simp [SQXToken.isOperatorBase] at hop
    | plain tv => rw [traverseFrom]
    | propertyRef tv => rw [traverseFrom]

/-- Claim C3 witness: the traversal rules evaluated at concrete nodes — an
EQUAL comparator is visited before its operands, which sit one level
deeper, and a plain token is a callback-only visit. -/
theorem traverseDescendants_clause_order_and_node_rules_witness :
    traverseFrom (.op "=" (some "a") [.propertyRef "a", .plain "1"]) 0 =
      ((.op "=" (some "a") [.propertyRef "a", .plain "1"] : SQXToken), 0) ::
        ([SQXToken.propertyRef "a", SQXToken.plain "1"].flatMap
          (fun x => traverseFrom x 1)) ∧
    traverseFrom (.plain "1") 5 = [((.plain "1" : SQXToken), 5)] := by
  refine ⟨?_, ?_⟩
  · exact traverseDescendants_clause_order_and_node_rules.2.2.2.2.1
      (.op "=" (some "a") [.propertyRef "a", .plain "1"]) 0 rfl rfl
  · exact traverseDescendants_clause_order_and_node_rules.2.2.2.2.2
      (.plain "1") 5 rfl rfl

/-- Claim C4: `getPropertyConditions(p)` collects exactly the operator
nodes visited by the idealized-tree traversal from the WHERE root whose own
property reference equals `p`; `getPropertyCondition(p)` returns `null` on
zero matches, the unique node on one match, and fails with the
multiple-conditions error on two or more matches. -/
theorem getPropertyConditions_characterization (q : SQXSearchQuery) (property : String) :
    (∀ t, t ∈ (q.getPropertyConditions property).1 ↔
      ∃ d, (t, d) ∈ traverseFrom (q.getConditions).1 0 ∧
        t.isOperatorBase = true ∧ t.opPropText = some property) ∧
    ((q.getPropertyConditions property).1 = [] →
      (q.getPropertyCondition property).1 = Except.ok none) ∧
    (∀ x, (q.getPropertyConditions property).1 = [x] →
      (q.getPropertyCondition property).1 = Except.ok (some x)) ∧
    (∀ x y rest, (q.getPropertyConditions property).1 = x :: y :: rest →
      (q.getPropertyCondition property).1 = Except.error
        "getPropertyCondition cannot be used on a query with more than one condition for the target property") := by
  refine ⟨?_, ?_, ?_, ?_⟩
  · intro t
    simp only [SQXSearchQuery.getPropertyConditions, List.mem_map, List.mem_filter,
      Bool.and_eq_true, beq_iff_eq]
    constructor
    · rintro ⟨⟨u, du⟩, ⟨hmem, hop, hpr⟩, huv⟩
      subst huv
      exact ⟨du, hmem, hop, hpr⟩
    · rintro ⟨d, hmem, hop, hpr⟩
      exact ⟨(t, d), ⟨hmem, hop, hpr⟩, rfl⟩
  · intro h
    simp only [SQXSearchQuery.getPropertyCondition]
    rw [show (q.getPropertyConditions property) =
          ((q.getPropertyConditions property).1, (q.getPropertyConditions property).2) from rfl, h]
  · intro x h
    simp only [SQXSearchQuery.getPropertyCondition]
    rw [show (q.getPropertyConditions property) =
          ((q.getPropertyConditions property).1, (q.getPropertyConditions property).2) from rfl, h]
  · intro x y rest h
    simp only [SQXSearchQuery.getPropertyCondition]
    rw [show (q.getPropertyConditions property) =
          ((q.getPropertyConditions property).1, (q.getPropertyConditions property).2) from rfl, h]

/-- Claim C4 witness: on a WHERE of `AND(status = 'open')` the property
"status" has exactly one condition and "tag" has none, and with a second
status condition the single-condition accessor fails. -/
theorem getPropertyConditions_characterization_witness :
    (({ where_ := some ⟨.group .andK
          [.op "=" (some "status") [.propertyRef "status", .plain "open"]]⟩ } :
        SQXSearchQuery).getPropertyCondition "status").1 =
      Except.ok (some (.op "=" (some "status") [.propertyRef "status", .plain "open"])) ∧
    (({ where_ := some ⟨.group .andK
          [.op "=" (some "status") [.propertyRef "status", .plain "open"]]⟩ } :
        SQXSearchQuery).getPropertyCondition "tag").1 = Except.ok none ∧
    (({ where_ := some ⟨.group .andK
          [.op "=" (some "status") [.propertyRef "status", .plain "open"],
           .op "=" (some "status") [.propertyRef "status", .plain "closed"]]⟩ } :
        SQXSearchQuery).getPropertyCondition "status").1 =
      Except.error "getPropertyCondition cannot be used on a query with more than one condition for the target property" := by
  refine ⟨?_, ?_, ?_⟩
  · exact (getPropertyConditions_characterization
      { where_ := some ⟨.group .andK
          [.op "=" (some "status") [.propertyRef "status", .plain "open"]]⟩ }
      "status").2.2.1 _ rfl
  · exact (getPropertyConditions_characterization
      { where_ := some ⟨.group .andK
          [.op "=" (some "status") [.propertyRef "status", .plain "open"]]⟩ }
      "tag").2.1 rfl
  · exact (getPropertyConditions_characterization
      { where_ := some ⟨.group .andK
          [.op "=" (some "status") [.propertyRef "status", .plain "open"],
           .op "=" (some "status") [.propertyRef "status", .plain "closed"]]⟩ }
      "status").2.2.2 _ _ _ rfl

/-- Claim C5: whenever the parser accumulated a non-empty error list,
`fromQueryString` surfaces exactly the single `invalidQuery` failure and
exposes no partial query; with an empty error list it returns the query
built from the parser's clause fields. -/
theorem fromQueryString_error_policy (parsed : SQXParserState) :
    (parsed.errors ≠ [] →
      SQXSearchQuery.fromQueryString parsed = Except.error SQXQueryError.invalidQuery) ∧
    (parsed.errors = [] →
      SQXSearchQuery.fromQueryString parsed =
        Except.ok (SQXSearchQuery.fromParser parsed)) := by
  constructor
  · intro h
    simp [SQXSearchQuery.fromQueryString, List.length_eq_zero, h]
  · intro h
    simp [SQXSearchQuery.fromQueryString, h]

/-- Claim C5 witness: one accumulated error fails the whole parse with the
single failure; no errors yield the parsed query. -/
theorem fromQueryString_error_policy_witness :
    SQXSearchQuery.fromQueryString { errors := ["unexpected token"] } =
      Except.error SQXQueryError.invalidQuery ∧
    SQXSearchQuery.fromQueryString { errors := [] } =
      Except.ok (SQXSearchQuery.fromParser { errors := [] }) := by
  exact ⟨(fromQueryString_error_policy { errors := ["unexpected token"] }).1 (by simp),
         (fromQueryString_error_policy { errors := [] }).2 rfl⟩

/-- Claim C10: `fromParser` copies the seven clause fields and never
`time_range`, so every query accepted by `fromQueryString` has a null
`time_range`; the JSON path `fromJson` is the one that can populate it. -/
theorem fromParser_never_sets_time_range (parsed : SQXParserState)
    (key name : Option String) :
    ((SQXSearchQuery.fromParser parsed).select = parsed.select ∧
     (SQXSearchQuery.fromParser parsed).where_ = parsed.where_ ∧
     (SQXSearchQuery.fromParser parsed).order_by = parsed.orderBy ∧
     (SQXSearchQuery.fromParser parsed).group_by = parsed.groupBy ∧
     (SQXSearchQuery.fromParser parsed).group_by_permuted = parsed.groupByPermuted ∧
     (SQXSearchQuery.fromParser parsed).limit = parsed.limit ∧
     (SQXSearchQuery.fromParser parsed).having = parsed.having) ∧
    (SQXSearchQuery.fromParser parsed).time_range = none ∧
    (∀ q, SQXSearchQuery.fromQueryString parsed = Except.ok q → q.time_range = none) ∧
    (SQXSearchQuery.fromJson key name parsed).time_range = parsed.timeRange := by
  refine ⟨⟨rfl, rfl, rfl, rfl, rfl, rfl, rfl⟩, rfl, ?_, rfl⟩
  intro q hq
  rw [SQXSearchQuery.fromQueryString] at hq
  by_cases h : parsed.errors.length ≠ 0
  · simp [h] at hq
  · simp [h] at hq
    subst hq
    rfl

/-- Claim C10 witness: a successful parse with a populated time-range slot
in the parser state still yields a query whose `time_range` is null, while
`fromJson` on the same state populates it. -/
theorem fromParser_never_sets_time_range_witness :
    (SQXSearchQuery.fromParser { timeRange := some (.plain "24h") }).time_range = none ∧
    (SQXSearchQuery.fromJson none none { timeRange := some (.plain "24h") }).time_range =
      some (.plain "24h") := by
  exact ⟨(fromParser_never_sets_time_range { timeRange := some (.plain "24h") } none none).2.2.1
           (SQXSearchQuery.fromParser { timeRange := some (.plain "24h") }) rfl,
         (fromParser_never_sets_time_range { timeRange := some (.plain "24h") } none none).2.2.2⟩

/-- The flag produced by the column loop is the old flag OR-ed with the
presence of an aggregate projection among the columns. -/
theorem columnsFold_flag (cols : List SQXToken) (aggregate : Bool) :
    (columnsFold cols aggregate).2 =
      (aggregate || cols.any SQXToken.isAggregateProjection) := by
  induction cols generalizing aggregate with
  | nil => simp [columnsFold]
  | cons c rest ih =>
      rw [columnsFold]
      cases c with
      | projectAs tv origin aliasTok =>
          by_cases h : origin.isOperatorBase
          · simp [columnStep, h, ih, SQXToken.isAggregateProjection]
          · simp [columnStep, h, ih, SQXToken.isAggregateProjection,
                  Bool.or_assoc, Bool.or_comm]
      | propertyRef tv => simp [columnStep, ih, SQXToken.isAggregateProjection]
      | plain tv => simp [columnStep, ih, SQXToken.isAggregateProjection, SQXToken.isOperatorBase]
      | group gk items =>
          cases gk <;>
            simp [columnStep, ih, SQXToken.isAggregateProjection, SQXToken.isOperatorBase]
      | op tv pr ds => simp [columnStep, ih, SQXToken.isAggregateProjection, SQXToken.isOperatorBase]

/-- Claim C6: the SELECT list `count(x) AS total, name` yields exactly the
descriptors `{name:"total", asField:"count(x)", type:"number",
isAggregate:true}` and `{name:"name", type:"any"}` in that order and makes
`isAggregate()` return true; in general a bare property ref yields type
"any", a PROJECT_AS yields the alias as name with type "number" and the
aggregate mark exactly when its origin is an operator, and any other
operator column yields type "number". -/
theorem getColumnDescriptions_classification :
    (({ select := some countTotalNameSelect } : SQXSearchQuery).getColumnDescriptions).1 =
      [{ name := "total", type := "number", asField := some "count(x)", isAggregate := true },
       { name := "name", type := "any", asField := none, isAggregate := false }] ∧
    (({ select := some countTotalNameSelect } : SQXSearchQuery).isAggregate).1 = true ∧
    (∀ tv aggregate, columnStep (.propertyRef tv) aggregate =
      (some { name := tv, type := "any" }, aggregate)) ∧
    (∀ tv origin aliasTok aggregate, origin.isOperatorBase = true →
      columnStep (.projectAs tv origin aliasTok) aggregate =
        (some { name := aliasTok.textValue, type := "number",
                asField := some origin.textValue, isAggregate := true }, true)) ∧
    (∀ tv origin aliasTok aggregate, origin.isOperatorBase = false →
      columnStep (.projectAs tv origin aliasTok) aggregate =
        (some { name := aliasTok.textValue, type := "any",
                asField := some origin.textValue, isAggregate := false }, aggregate)) ∧
    (∀ tv pr ds aggregate, columnStep (.op tv pr ds) aggregate =
      (some { name := tv, type := "number" }, aggregate)) := by
  refine ⟨rfl, rfl, fun tv aggregate => rfl, ?_, ?_, fun tv pr ds aggregate => rfl⟩
  · intro tv origin aliasTok aggregate h
    simp [columnStep, h]
  · intro tv origin aliasTok aggregate h
    simp [columnStep, h]

/-- Claim C6 witness: the PROJECT_AS classification rules evaluated on the
`count(x) AS total` column and on an alias of a bare property ref. -/
theorem getColumnDescriptions_classification_witness :
    columnStep (.projectAs "count(x) AS total"
        (.op "count(x)" none [.propertyRef "x"]) (.plain "total")) false =
      (some { name := "total", type := "number",
              asField := some "count(x)", isAggregate := true }, true) ∧
    columnStep (.projectAs "x AS y" (.propertyRef "x") (.plain "y")) false =
      (some { name := "y", type := "any",
              asField := some "x", isAggregate := false }, false) := by
  exact ⟨getColumnDescriptions_classification.2.2.2.1 "count(x) AS total"
           (.op "count(x)" none [.propertyRef "x"]) (.plain "total") false rfl,
         getColumnDescriptions_classification.2.2.2.2.1 "x AS y"
           (.propertyRef "x") (.plain "y") false rfl⟩

/-- Claim C9: the cached aggregate flag after column inference is the old
flag OR-ed with the presence of an aggregate PROJECT_AS column — it is
assigned true only by that branch and never reset — hence once
`isAggregate()` has returned true it keeps returning true on the resulting
instance, whatever the SELECT clause is replaced with. -/
theorem aggregate_flag_monotone (q : SQXSearchQuery) :
    ((q.getColumnDescriptions).2.aggregate = (q.aggregate || q.hasAggregateColumn)) ∧
    (q.aggregate = true → (q.getColumnDescriptions).2.aggregate = true) ∧
    ((q.isAggregate).1 = true →
      ∀ sel, (({ (q.isAggregate).2 with select := sel } : SQXSearchQuery).isAggregate).1 =
        true) := by
  have h1 : (q.getColumnDescriptions).2.aggregate = (q.aggregate || q.hasAggregateColumn) := by
    rw [SQXSearchQuery.getColumnDescriptions, SQXSearchQuery.hasAggregateColumn]
    cases q.select with
    | none => simp
    | some sel => simp [columnsFold_flag]
  refine ⟨h1, ?_, ?_⟩
  · intro h
    rw [h1, h, Bool.true_or]
  · intro h sel
    have hflag : ((q.isAggregate).2).aggregate = true := h
    rw [SQXSearchQuery.isAggregate, SQXSearchQuery.getColumnDescriptions]
    cases sel with
    | none => simpa using hflag
    | some s => simp [columnsFold_flag, hflag]

/-- Claim C9 witness: a query whose SELECT holds `count(x) AS total`
reports aggregate once, and still reports aggregate after the SELECT
clause is replaced with an empty column list. -/
theorem aggregate_flag_monotone_witness :
    (({ select := some countTotalNameSelect } : SQXSearchQuery).isAggregate).1 = true ∧
    (({ (({ select := some countTotalNameSelect } : SQXSearchQuery).isAggregate).2 with
        select := some ⟨[]⟩ } : SQXSearchQuery).isAggregate).1 = true := by
  exact ⟨rfl, (aggregate_flag_monotone { select := some countTotalNameSelect }).2.2 rfl
               (some ⟨[]⟩)⟩

/-- Claim C7: the conjunction of `status = "open"` and `tag in ["a","b"]`
holds of the subject with status "open" and tag "b", fails once tag is
"c", and the arity-1 descriptor `{"=":[{"source":"status"}]}` raises an
error. -/
theorem evaluator_concrete_and_eq_in :
    dispatchOperator subjectStatusOpenTagB 10 andEqInDescriptor = .ok true ∧
    dispatchOperator subjectStatusOpenTagC 10 andEqInDescriptor = .ok false ∧
    dispatchOperator subjectStatusOpenTagB 10
        (.obj [("=", .arr [.obj [("source", .str "status")]])]) =
      .error "Failed to interpret condition descriptor: `!=` descriptor should have two elements" :=
  ⟨rfl, rfl, rfl⟩

/-- Claim C8 counterexample: the array form `{"not":[d]}` does raise an
error — `Object.keys` of the one-element array is `["0"]`, which reaches
the unknown-operator branch — even though `d` itself evaluates to
`ok true` (so the claimed negation would have been `ok false`). -/
theorem not_array_form_counterexample :
    dispatchOperator subjectStatusOpenTagB 10 (.obj [("not", .arr [eqStatusOpen])]) =
      .error "Cannot evaluate unknown operator '0'" ∧
    dispatchOperator subjectStatusOpenTagB 10 eqStatusOpen = .ok true :=
  ⟨rfl, rfl⟩

/-- Claim C8 (amended): every operator key in {and, or, =, !=, in,
contains_all, contains_any} accepts an operand in the array form
`{"<op>": [...]}`, but `not` takes its operand descriptor directly: for
every descriptor `d` and sufficient fuel, `{"not": d}` evaluates to the
negation of `d`'s result, while the array-wrapped `{"not": [d]}` always
fails with the unknown-operator error for key "0". -/
theorem operator_vocabulary_amended :
    (∀ (subject : String → String → Jval) (d : Jval) (n : Nat),
      dispatchOperator subject (n + 1) (.obj [("not", d)]) =
        evaluateNot (dispatchOperator subject n) d) ∧
    (∀ (recur : Jval → Except String Bool) (d : Jval),
      evaluateNot recur d = (recur d).map (fun b => !b)) ∧
    (∀ (subject : String → String → Jval) (d : Jval) (n : Nat),
      dispatchOperator subject (n + 2) (.obj [("not", .arr [d])]) =
        .error "Cannot evaluate unknown operator '0'") ∧
    dispatchOperator subjectStatusOpenTagB 10 (.obj [("and", .arr [eqStatusOpen])]) = .ok true ∧
    dispatchOperator subjectStatusOpenTagB 10 (.obj [("or", .arr [eqStatusOpen])]) = .ok true ∧
    dispatchOperator subjectStatusOpenTagB 10 eqStatusOpen = .ok true ∧
    dispatchOperator subjectStatusOpenTagB 10
        (.obj [("!=", .arr [.obj [("source", .str "status")], .str "closed"])]) = .ok true ∧
    dispatchOperator subjectStatusOpenTagB 10
        (.obj [("in", .arr [.obj [("source", .str "tag")], .arr [.str "a", .str "b"]])]) =
      .ok true ∧
    dispatchOperator subjectStatusOpenTagB 10
        (.obj [("contains_all", .arr [.obj [("source", .str "tags")], .arr [.str "a"]])]) =
      .ok true ∧
    dispatchOperator subjectStatusOpenTagB 10
        (.obj [("contains_any", .arr [.obj [("source", .str "tags")], .arr [.str "b", .str "z"]])]) =
      .ok true := by
  refine ⟨fun subject d n => rfl, ?_, fun subject d n => rfl, rfl, rfl, rfl, rfl, rfl, rfl, rfl⟩
  intro recur d
  rw [evaluateNot]
  cases recur d <;> rfl
